import Mathlib

/-!
Verification development for the request-execution core of the cpp-driver
repository (src/cpp-driver/src/request_handler.hpp).

The `ResponseFuture` operations are translated directly from the inline
method bodies in the header. The `Future` base-class internals
(`is_set`, `internal_set`, `internal_set_error`, `internal_wait`) and the
`RequestHandler` / `RequestExecution` method bodies are declared in the
header but implemented in files not present in the repository snapshot;
those parts are modelled from the specification, as marked on each
definition.

Blocking is modelled by `Option`: an accessor that would block a calling
thread until the outcome is set returns `none` while the future is unset
and `some v` once it is set (at which point `internal_wait` returns
immediately and the stored value is handed back).
-/

namespace Cass

/-- A network address of a host (`Address` in the source); modelled as an
opaque numeric identity. A default-constructed address is `⟨0⟩`. -/
structure Address where
  ip : Nat
deriving DecidableEq, Repr

/-- `AddressVec` from the source: a vector of addresses. -/
abbrev AddressVec := List Address

/-- A decoded response object (`Response::Ptr` target); modelled as an
opaque identity so that "the same response object" is expressible. -/
structure Response where
  id : Nat
deriving DecidableEq, Repr

/-- Per-host error categories from the error taxonomy of the spec
(overloaded, unavailable, read/write-timeout, truncated, server error,
unprepared, connection error, client-side timeout of one attempt). -/
inductive PerHostError where
  | overloaded
  | unavailable
  | readTimeout
  | writeTimeout
  | truncated
  | serverErr
  | unprepared
  | connectionErr
  | clientTimeout
deriving DecidableEq, Repr

/-- Error codes stored in the future (`CassError` in the source), following
the spec's taxonomy: `NoHostsAvailable`, `Timeout` (request level),
`Canceled`, `ServerError{category}`, and `AllAttemptsExhausted` carrying
the last observed per-host error. -/
inductive CassError where
  | noHostsAvailable
  | requestTimedOut
  | canceled
  | server (category : PerHostError)
  | allAttemptsExhausted (last : Option PerHostError)
deriving DecidableEq, Repr

/-- State of a `ResponseFuture` (request_handler.hpp, lines 49-127) together
with the state inherited from the `Future` base class: the set flag and the
stored error (code and message) live in `Future`; the winning address, the
response pointer and the attempted-address vector are the fields
`address_`, `response_`, `attempted_addresses_` of `ResponseFuture`.
`response_` is a shared pointer, null before any response is stored, so it
is an `Option`. -/
structure ResponseFuture where
  is_set_ : Bool
  error_ : Option (CassError × String)
  address_ : Address
  response_ : Option Response
  attempted_addresses_ : AddressVec
deriving DecidableEq, Repr

namespace ResponseFuture

/-- The `ResponseFuture()` constructor: nothing set, no error, a
default-constructed address, a null response pointer, no attempts. -/
def init : ResponseFuture :=
  { is_set_ := false
    error_ := none
    address_ := ⟨0⟩
    response_ := none
    attempted_addresses_ := [] }

/-- Modelled from the spec: `Future::is_set` (base class, not in src/) —
whether a terminal outcome has been stored. -/
def is_set (f : ResponseFuture) : Bool :=
  f.is_set_

/-- Modelled from the spec: `Future::internal_set` (base class, not in
src/) — marks the future as set and wakes all waiters; waiters are released
only after the outcome fields are fully written. -/
def internal_set (f : ResponseFuture) : ResponseFuture :=
  { f with is_set_ := true }

/-- Modelled from the spec: `Future::internal_set_error` (base class, not
in src/) — stores the error code and message, then marks the future as set
and wakes all waiters. -/
def internal_set_error (f : ResponseFuture) (code : CassError) (message : String) :
    ResponseFuture :=
  internal_set { f with error_ := some (code, message) }

/-- `ResponseFuture::set_response` (request_handler.hpp lines 60-69): under
the lock, if nothing is set, store the address and the response, mark set,
and return true; otherwise return false. -/
def set_response (f : ResponseFuture) (address : Address) (response : Response) :
    Bool × ResponseFuture :=
  if !f.is_set then
    (true, internal_set { f with address_ := address, response_ := some response })
  else
    (false, f)

/-- `ResponseFuture::response` (lines 71-75): under the lock, wait until
the outcome is set, then return the stored response pointer. `none` stands
for the call still blocking. -/
def response (f : ResponseFuture) : Option (Option Response) :=
  if f.is_set then some f.response_ else none

/-- `ResponseFuture::set_error_with_address` (lines 77-85): under the lock,
if nothing is set, store the address, store the error, mark set, and
return true; otherwise return false. -/
def set_error_with_address (f : ResponseFuture) (address : Address)
    (code : CassError) (message : String) : Bool × ResponseFuture :=
  if !f.is_set then
    (true, internal_set_error { f with address_ := address } code message)
  else
    (false, f)

/-- `ResponseFuture::set_error_with_response` (lines 87-97): under the
lock, if nothing is set, store the address and the error response object,
store the error, mark set, and return true; otherwise return false. -/
def set_error_with_response (f : ResponseFuture) (address : Address)
    (response : Response) (code : CassError) (message : String) :
    Bool × ResponseFuture :=
  if !f.is_set then
    (true, internal_set_error { f with address_ := address, response_ := some response }
      code message)
  else
    (false, f)

/-- `ResponseFuture::address` (lines 99-103): wait until the outcome is
set, then return the stored address. `none` stands for the call still
blocking. -/
def address (f : ResponseFuture) : Option Address :=
  if f.is_set then some f.address_ else none

/-- `ResponseFuture::attempted_addresses` (lines 106-110): under the lock,
`internal_wait` until the outcome is set, then return a copy of the
attempted-address vector. `none` stands for the call still blocking. -/
def attempted_addresses (f : ResponseFuture) : Option AddressVec :=
  if f.is_set then some f.attempted_addresses_ else none

/-- `ResponseFuture::add_attempted_address` (lines 118-121): under the
lock, `push_back` the address onto the attempted-address vector. -/
def add_attempted_address (f : ResponseFuture) (address : Address) : ResponseFuture :=
  { f with attempted_addresses_ := f.attempted_addresses_ ++ [address] }

/-- Modelled from the spec: `Future::set_error` without an attributed host
address (declared through `RequestHandler::set_error(code, message)` at
request_handler.hpp line 191; the implementation file is not in src/).
Same single-assignment semantics as the address-taking setters: succeeds
iff no prior outcome was set; on success stores the error code and message
and wakes all waiters; the stored winning address is left untouched. -/
def set_error (f : ResponseFuture) (code : CassError) (message : String) :
    Bool × ResponseFuture :=
  if !f.is_set then
    (true, internal_set_error f code message)
  else
    (false, f)

end ResponseFuture

/-- One call of the single-assignment setter family of a `ResponseFuture`. -/
inductive SetCall where
  | respCall (address : Address) (response : Response)
  | errAddrCall (address : Address) (code : CassError) (message : String)
  | errRespCall (address : Address) (response : Response)
      (code : CassError) (message : String)
  | errPlainCall (code : CassError) (message : String)
deriving DecidableEq, Repr

/-- Deliver one setter call to the future, returning the call's boolean
result and the future's new state. -/
def applyCall (f : ResponseFuture) : SetCall → Bool × ResponseFuture
  | .respCall a r => f.set_response a r
  | .errAddrCall a c m => f.set_error_with_address a c m
  | .errRespCall a r c m => f.set_error_with_response a r c m
  | .errPlainCall c m => f.set_error c m

/-- Deliver a sequence of setter calls in order, collecting each call's
boolean result and the final state. -/
def runCalls (f : ResponseFuture) : List SetCall → List Bool × ResponseFuture
  | [] => ([], f)
  | c :: cs =>
    let step := applyCall f c
    let rest := runCalls step.2 cs
    (step.1 :: rest.1, rest.2)

/-- A candidate host produced by the Host Plan; carries its address
(`Host` in the source, seen through `Host::Ptr`). -/
structure Host where
  address : Address
deriving DecidableEq, Repr

/-- The decisions a Retry Policy may return, per the spec's contract:
rethrow, retry_same_host, retry_next_host, or ignore. -/
inductive RetryDecision where
  | rethrow
  | retrySameHost
  | retryNextHost
  | ignore
deriving DecidableEq, Repr

/-- The part of the `RequestHandler` state that the timeout path touches:
the shared `ResponseFuture` and the cancellation flag `is_canceled_`
(request_handler.hpp lines 207, 209). -/
structure HandlerState where
  future : ResponseFuture
  is_canceled_ : Bool
deriving DecidableEq, Repr

/-- Modelled from the spec: `RequestHandler::on_timeout` (declared at
request_handler.hpp line 199; the implementation file is not in src/).
It fires when the request's absolute timeout elapses: it sets the
cancellation flag and commits a timeout error, the commit taking effect
only if no result is set yet — the race with a concurrently-succeeding
Execution is resolved by the future's single-assignment check. -/
def HandlerState.on_timeout (h : HandlerState) : HandlerState :=
  { is_canceled_ := true
    future := (h.future.set_error .requestTimedOut "Request timed out").2 }

/-- Modelled from the spec: the retry loop a single Execution drives
through `RequestHandler::retry` / `internal_retry` (declared at
request_handler.hpp lines 166 and 203; the implementation file is not in
src/). For each host granted by the Host Plan the attempted address is
recorded, the attempt's outcome is classified, and the Retry Policy is
consulted: `retry_next_host` moves on to the next host remembering the
error as the last seen one; `rethrow` surfaces the error as final;
`ignore` is treated as a success with an empty (null) response;
`retry_same_host` resubmits on the same host (delay elided in this
untimed model). When the plan is exhausted and this was the last running
Execution with no success recorded, the aggregate error is committed: the
last-seen per-host error wrapped as `AllAttemptsExhausted`, or
`NoHostsAvailable` if no host was ever attempted. Fuel bounds the
`retry_same_host` resubmissions so the recursion is structural. -/
def runRetryLoop (policy : PerHostError → RetryDecision)
    (errorOf : Host → PerHostError × String) (fuel : Nat) :
    List Host → Option (Host × PerHostError × String) → ResponseFuture →
    ResponseFuture
  | [], lastError, f =>
    match lastError with
    | some le =>
      (f.set_error_with_address le.1.address (.allAttemptsExhausted (some le.2.1)) le.2.2).2
    | none => (f.set_error .noHostsAvailable "No hosts available").2
  | h :: rest, lastError, f =>
    let f := f.add_attempted_address h.address
    let em := errorOf h
    match policy em.1 with
    | .retryNextHost => runRetryLoop policy errorOf fuel rest (some (h, em.1, em.2)) f
    | .rethrow => (f.set_error_with_address h.address (.server em.1) em.2).2
    | .ignore => (f.set_response h.address ⟨0⟩).2
    | .retrySameHost =>
      match fuel with
      | 0 => (f.set_error_with_address h.address (.server em.1) em.2).2
      | fuel + 1 => runRetryLoop policy errorOf fuel (h :: rest) lastError f
  termination_by hosts _ _ => (fuel, hosts.length)

/-- Terminal status of one Execution as seen by its Handler. -/
inductive ExecStatus where
  | inFlight
  | terminal
deriving DecidableEq, Repr

/-- Modelled from the spec: the Handler's bookkeeping of its Executions —
the list of Executions it has started (each in flight or already having
reported terminal status) together with the atomic counter
`running_executions_` (request_handler.hpp line 210). -/
structure ExecCounterState where
  execs : List ExecStatus
  running_executions_ : Int
deriving DecidableEq, Repr

/-- A Handler starts with no Executions and a zero counter. -/
def ExecCounterState.init : ExecCounterState :=
  { execs := [], running_executions_ := 0 }

/-- Modelled from the spec: the two events that touch the counter — the
Handler starts a new Execution (incrementing the counter), or an Execution
still in flight reports terminal status back (decrementing it). Each
Execution reports terminal status at most once. -/
inductive ExecCounterStep : ExecCounterState → ExecCounterState → Prop where
  | start (s : ExecCounterState) :
    ExecCounterStep s
      { execs := s.execs ++ [.inFlight]
        running_executions_ := s.running_executions_ + 1 }
  | finish (s : ExecCounterState) (l1 l2 : List ExecStatus)
      (h : s.execs = l1 ++ .inFlight :: l2) :
    ExecCounterStep s
      { execs := l1 ++ .terminal :: l2
        running_executions_ := s.running_executions_ - 1 }

/-- The Handler states reachable from a fresh Handler through the
counter-touching events. -/
inductive ExecCounterReachable : ExecCounterState → Prop where
  | init : ExecCounterReachable ExecCounterState.init
  | step {s t : ExecCounterState} :
    ExecCounterReachable s → ExecCounterStep s t → ExecCounterReachable t

/-- The number of Executions currently in flight in the bookkeeping list. -/
def inFlightCount (l : List ExecStatus) : Nat :=
  l.countP (fun e => e == .inFlight)

/-! ### Helper lemmas -/

/-- Any setter call delivered to an already-set future returns false and
leaves the state unchanged. -/
theorem applyCall_of_set {f : ResponseFuture} (h : f.is_set_ = true) (c : SetCall) :
    applyCall f c = (false, f) := by
  cases c <;>
    simp [applyCall, ResponseFuture.set_response, ResponseFuture.set_error_with_address,
      ResponseFuture.set_error_with_response, ResponseFuture.set_error,
      ResponseFuture.is_set, h]

/-- A whole sequence of setter calls delivered to an already-set future
returns false every time and leaves the state unchanged. -/
theorem runCalls_of_set {f : ResponseFuture} (h : f.is_set_ = true) (cs : List SetCall) :
    runCalls f cs = (List.replicate cs.length false, f) := by
  induction cs with
  | nil => rfl
  | cons c cs ih =>
    simp [runCalls, applyCall_of_set h, ih, List.replicate_succ]

/-- Any setter call delivered to an unset future returns true and leaves
the future set. -/
theorem applyCall_of_unset {f : ResponseFuture} (h : f.is_set_ = false) (c : SetCall) :
    (applyCall f c).1 = true ∧ (applyCall f c).2.is_set_ = true := by
  cases c <;>
    simp [applyCall, ResponseFuture.set_response, ResponseFuture.set_error_with_address,
      ResponseFuture.set_error_with_response, ResponseFuture.set_error,
      ResponseFuture.internal_set, ResponseFuture.internal_set_error,
      ResponseFuture.is_set, h]

/-- After the timeout path has run, the future is set, whatever it held
before: either it was already set, or the timeout error just set it. -/
theorem on_timeout_future_set (h : HandlerState) :
    h.on_timeout.future.is_set_ = true := by
  by_cases hs : h.future.is_set_ = true
  · simp [HandlerState.on_timeout, ResponseFuture.set_error, ResponseFuture.is_set, hs]
  · have hu : h.future.is_set_ = false := by simpa using hs
    simp [HandlerState.on_timeout, ResponseFuture.set_error, ResponseFuture.is_set, hu,
      ResponseFuture.internal_set_error, ResponseFuture.internal_set]

/-- The running-execution counter equals the number of in-flight
Executions in every reachable Handler state. -/
theorem execCounter_eq_inFlight {s : ExecCounterState} (h : ExecCounterReachable s) :
    s.running_executions_ = (inFlightCount s.execs : Int) := by
  induction h with
  | init => rfl
  | step _ hstep ih =>
    cases hstep with
    | start =>
      simp only [inFlightCount] at ih ⊢
      rw [List.countP_append, ih]
      simp [List.countP_cons]
    | finish l1 l2 hEq =>
      rw [hEq] at ih
      simp only [inFlightCount, List.countP_append, List.countP_cons] at ih ⊢
      simp at ih ⊢
      omega

/-- One step of the retry loop under a policy that always answers
retry-next-host: the attempted address is recorded, this host's error
becomes the last-seen one, and the loop moves on to the rest of the plan. -/
theorem runRetryLoop_step (policy : PerHostError → RetryDecision)
    (errorOf : Host → PerHostError × String)
    (hp : ∀ e, policy e = RetryDecision.retryNextHost)
    (fuel : Nat) (h : Host) (rest : List Host)
    (lastError : Option (Host × PerHostError × String)) (f : ResponseFuture) :
    runRetryLoop policy errorOf fuel (h :: rest) lastError f =
      runRetryLoop policy errorOf fuel rest (some (h, errorOf h))
        (f.add_attempted_address h.address) := by
  cases fuel <;> simp [runRetryLoop, hp]

/-- An exhausted plan with a recorded last error commits that error
wrapped as AllAttemptsExhausted, attributed to the host that produced it. -/
theorem runRetryLoop_exhausted (policy : PerHostError → RetryDecision)
    (errorOf : Host → PerHostError × String) (fuel : Nat)
    (le : Host × PerHostError × String) (f : ResponseFuture) :
    runRetryLoop policy errorOf fuel [] (some le) f =
      (f.set_error_with_address le.1.address
        (CassError.allAttemptsExhausted (some le.2.1)) le.2.2).2 := by
  cases fuel <;> simp [runRetryLoop]

/-! ### Claim theorems -/

/-- Claim C1: for every sequence of `set_response` /
`set_error_with_address` / `set_error_with_response` calls delivered in
order to one unset `ResponseFuture`, exactly one call returns true — the
first one delivered — every later call returns false, and the final state
of the future is exactly the state written by the winning call, untouched
by the later calls. -/
theorem c1_single_assignment (f : ResponseFuture) (c : SetCall) (cs : List SetCall)
    (h : f.is_set_ = false) :
    runCalls f (c :: cs) = (true :: List.replicate cs.length false, (applyCall f c).2) := by
  obtain ⟨h1, h2⟩ := applyCall_of_unset h c
  simp [runCalls, h1, runCalls_of_set h2]

/-- Witness for C1 at a concrete two-call sequence: the first call wins,
the second is a no-op. -/
theorem c1_single_assignment_witness :
    runCalls ResponseFuture.init
        [SetCall.respCall ⟨1⟩ ⟨7⟩, SetCall.errAddrCall ⟨2⟩ CassError.canceled "late"] =
      (true :: List.replicate 1 false,
        (applyCall ResponseFuture.init (SetCall.respCall ⟨1⟩ ⟨7⟩)).2) :=
  c1_single_assignment ResponseFuture.init (SetCall.respCall ⟨1⟩ ⟨7⟩)
    [SetCall.errAddrCall ⟨2⟩ CassError.canceled "late"] rfl

/-- Claim C9: the attempted-address record is a list, not a set — each
`add_attempted_address` call appends its address unconditionally, so a
sequence of calls appends exactly that sequence, occurrence counts add up
with no deduplication, and (once the future is set) `attempted_addresses`
returns exactly that list. -/
theorem c9_attempted_no_dedup (f : ResponseFuture) (as : List Address) :
    ((as.foldl ResponseFuture.add_attempted_address f).attempted_addresses_ =
      f.attempted_addresses_ ++ as) ∧
    (∀ a : Address,
      ((as.foldl ResponseFuture.add_attempted_address f).attempted_addresses_.count a =
        f.attempted_addresses_.count a + as.count a)) ∧
    ((as.foldl ResponseFuture.add_attempted_address f).is_set_ = true →
      (as.foldl ResponseFuture.add_attempted_address f).attempted_addresses =
        some (f.attempted_addresses_ ++ as)) := by
  have key : ∀ (bs : List Address) (g : ResponseFuture),
      (bs.foldl ResponseFuture.add_attempted_address g).attempted_addresses_ =
        g.attempted_addresses_ ++ bs ∧
      (bs.foldl ResponseFuture.add_attempted_address g).is_set_ = g.is_set_ := by
    intro bs
    induction bs with
    | nil => intro g; simp
    | cons b bs ih =>
      intro g
      obtain ⟨ha, hs⟩ := ih (g.add_attempted_address b)
      refine ⟨?_, ?_⟩
      · rw [List.foldl_cons, ha]
        simp [ResponseFuture.add_attempted_address]
      · simpa [ResponseFuture.add_attempted_address] using hs
  obtain ⟨ha, _⟩ := key as f
  refine ⟨ha, ?_, ?_⟩
  · intro a
    simp [ha, List.count_append]
  · intro hset
    simp [ResponseFuture.attempted_addresses, ResponseFuture.is_set, hset, ha]

/-- Witness for C9 at a concrete input: attempting the same address twice
records it twice, and the snapshot after completion shows both. -/
theorem c9_attempted_no_dedup_witness :
    ((([⟨4⟩, ⟨4⟩] : List Address).foldl ResponseFuture.add_attempted_address
        (ResponseFuture.init.set_response ⟨4⟩ ⟨1⟩).2).attempted_addresses_ =
      (ResponseFuture.init.set_response ⟨4⟩ ⟨1⟩).2.attempted_addresses_ ++ [⟨4⟩, ⟨4⟩]) ∧
    ((([⟨4⟩, ⟨4⟩] : List Address).foldl ResponseFuture.add_attempted_address
        (ResponseFuture.init.set_response ⟨4⟩ ⟨1⟩).2).attempted_addresses =
      some ((ResponseFuture.init.set_response ⟨4⟩ ⟨1⟩).2.attempted_addresses_ ++
        [⟨4⟩, ⟨4⟩])) := by
  obtain ⟨h1, _, h3⟩ :=
    c9_attempted_no_dedup (ResponseFuture.init.set_response ⟨4⟩ ⟨1⟩).2 [⟨4⟩, ⟨4⟩]
  exact ⟨h1, h3 rfl⟩

/-- Claim C10: `add_attempted_address` — whether or not the outcome has
been set — changes only the attempted-address list, appending exactly the
given address, and leaves the stored address, response, error code and
message, and the set/unset flag unchanged. -/
theorem c10_add_attempted_frame (f : ResponseFuture) (a : Address) :
    (f.add_attempted_address a).address_ = f.address_ ∧
    (f.add_attempted_address a).response_ = f.response_ ∧
    (f.add_attempted_address a).error_ = f.error_ ∧
    (f.add_attempted_address a).is_set_ = f.is_set_ ∧
    (f.add_attempted_address a).attempted_addresses_ =
      f.attempted_addresses_ ++ [a] :=
  ⟨rfl, rfl, rfl, rfl, rfl⟩

/-- Counterexample to claim C4 as stated: on a fresh `ResponseFuture`, with
no outcome set, `attempted_addresses()` does not return immediately with a
snapshot — the method calls `internal_wait` and blocks (modelled as
`none`), so it does not return the accumulated list. -/
theorem c4_counterexample :
    ResponseFuture.init.is_set_ = false ∧
    ResponseFuture.attempted_addresses ResponseFuture.init = none ∧
    ResponseFuture.attempted_addresses ResponseFuture.init ≠
      some ResponseFuture.init.attempted_addresses_ := by
  refine ⟨rfl, rfl, ?_⟩
  simp [ResponseFuture.attempted_addresses, ResponseFuture.is_set, ResponseFuture.init]

/-- Claim C4 (amended): `attempted_addresses()` waits exactly like
`response()` and `address()` do — it blocks until an outcome has been set
and only then returns a snapshot of the addresses accumulated so far. -/
theorem c4_attempted_waits (f : ResponseFuture) :
    (f.is_set_ = false → f.attempted_addresses = none) ∧
    (f.is_set_ = true → f.attempted_addresses = some f.attempted_addresses_) := by
  constructor <;> intro h <;>
    simp [ResponseFuture.attempted_addresses, ResponseFuture.is_set, h]

/-- Witness for the amended C4 at concrete inputs: a fresh future blocks,
a completed one returns its snapshot. -/
theorem c4_attempted_waits_witness :
    ResponseFuture.attempted_addresses ResponseFuture.init = none ∧
    ResponseFuture.attempted_addresses
        ((ResponseFuture.init.add_attempted_address ⟨5⟩).set_response ⟨5⟩ ⟨9⟩).2 =
      some [⟨5⟩] :=
  ⟨(c4_attempted_waits ResponseFuture.init).1 rfl,
    (c4_attempted_waits
      ((ResponseFuture.init.add_attempted_address ⟨5⟩).set_response ⟨5⟩ ⟨9⟩).2).2 rfl⟩

/-- Claim C5: `response()` and `address()` block the caller while no
outcome is set (modelled as returning `none`) and, once an outcome is set,
return the stored response and address; any number of observers reading
after further setter calls still see the single committed outcome, since
later setter calls change nothing. -/
theorem c5_blocking_accessors (f : ResponseFuture) :
    (f.is_set_ = false → f.response = none ∧ f.address = none) ∧
    (f.is_set_ = true → f.response = some f.response_ ∧ f.address = some f.address_) ∧
    (∀ cs : List SetCall, f.is_set_ = true →
      (runCalls f cs).2.response = f.response ∧
      (runCalls f cs).2.address = f.address) := by
  refine ⟨?_, ?_, ?_⟩
  · intro h
    constructor <;> simp [ResponseFuture.response, ResponseFuture.address,
      ResponseFuture.is_set, h]
  · intro h
    constructor <;> simp [ResponseFuture.response, ResponseFuture.address,
      ResponseFuture.is_set, h]
  · intro cs h
    rw [runCalls_of_set h cs]
    exact ⟨rfl, rfl⟩

/-- Witness for C5 at concrete inputs: an unset future blocks both
accessors; after a winning `set_response` both return the stored outcome,
also after a later (losing) setter call. -/
theorem c5_blocking_accessors_witness :
    (ResponseFuture.response ResponseFuture.init = none ∧
      ResponseFuture.address ResponseFuture.init = none) ∧
    (ResponseFuture.response (ResponseFuture.init.set_response ⟨3⟩ ⟨8⟩).2 =
        some (ResponseFuture.init.set_response ⟨3⟩ ⟨8⟩).2.response_ ∧
      ResponseFuture.address (ResponseFuture.init.set_response ⟨3⟩ ⟨8⟩).2 =
        some (ResponseFuture.init.set_response ⟨3⟩ ⟨8⟩).2.address_) ∧
    (ResponseFuture.response
        (runCalls (ResponseFuture.init.set_response ⟨3⟩ ⟨8⟩).2
          [SetCall.errPlainCall CassError.canceled "late"]).2 =
      ResponseFuture.response (ResponseFuture.init.set_response ⟨3⟩ ⟨8⟩).2) :=
  ⟨(c5_blocking_accessors ResponseFuture.init).1 rfl,
    (c5_blocking_accessors (ResponseFuture.init.set_response ⟨3⟩ ⟨8⟩).2).2.1 rfl,
    ((c5_blocking_accessors (ResponseFuture.init.set_response ⟨3⟩ ⟨8⟩).2).2.2
      [SetCall.errPlainCall CassError.canceled "late"] rfl).1⟩

/-- Claim C6: the future's plain error setter takes no host address — for
driver-internal errors such as "no hosts available" — and has the same
single-assignment semantics as the address-taking setters: it succeeds iff
no prior outcome was set, on success stores exactly the code and message
(leaving the address field untouched), on failure changes nothing, and
after any winning call of the setter family it fails. -/
theorem c6_plain_set_error (f : ResponseFuture) (code : CassError) (message : String) :
    ((f.set_error code message).1 = !f.is_set_) ∧
    (f.is_set_ = false →
      f.set_error code message =
        (true, { f with error_ := some (code, message), is_set_ := true })) ∧
    (f.is_set_ = true → f.set_error code message = (false, f)) ∧
    (∀ c : SetCall, f.is_set_ = false →
      (applyCall f c).2.set_error code message = (false, (applyCall f c).2)) := by
  refine ⟨?_, ?_, ?_, ?_⟩
  · by_cases h : f.is_set_ = true <;>
      simp_all [ResponseFuture.set_error, ResponseFuture.is_set,
        ResponseFuture.internal_set_error, ResponseFuture.internal_set]
  · intro h
    simp [ResponseFuture.set_error, ResponseFuture.is_set, h,
      ResponseFuture.internal_set_error, ResponseFuture.internal_set]
  · intro h
    simp [ResponseFuture.set_error, ResponseFuture.is_set, h]
  · intro c h
    obtain ⟨-, h2⟩ := applyCall_of_unset h c
    simp [ResponseFuture.set_error, ResponseFuture.is_set, h2]

/-- Witness for C6 at concrete inputs: the plain setter wins on a fresh
future storing only code and message, and loses after a prior
`set_response`. -/
theorem c6_plain_set_error_witness :
    (ResponseFuture.init.set_error CassError.noHostsAvailable "No hosts available" =
      (true, { ResponseFuture.init with
        error_ := some (CassError.noHostsAvailable, "No hosts available")
        is_set_ := true })) ∧
    ((applyCall ResponseFuture.init (SetCall.respCall ⟨1⟩ ⟨2⟩)).2.set_error
        CassError.noHostsAvailable "No hosts available" =
      (false, (applyCall ResponseFuture.init (SetCall.respCall ⟨1⟩ ⟨2⟩)).2)) :=
  ⟨(c6_plain_set_error ResponseFuture.init CassError.noHostsAvailable
      "No hosts available").2.1 rfl,
    (c6_plain_set_error ResponseFuture.init
      CassError.noHostsAvailable "No hosts available").2.2.2
      (SetCall.respCall ⟨1⟩ ⟨2⟩) rfl⟩

/-- Claim C8: when `set_error_with_response` is the first setter to
succeed, the error response object it was given is retained — a subsequent
`response()` call returns exactly that response object, not a null
pointer — alongside the stored error code, message and address. -/
theorem c8_error_response_retained (f : ResponseFuture) (a : Address) (r : Response)
    (c : CassError) (m : String) (h : f.is_set_ = false) :
    (f.set_error_with_response a r c m).1 = true ∧
    (f.set_error_with_response a r c m).2.response = some (some r) ∧
    (f.set_error_with_response a r c m).2.error_ = some (c, m) ∧
    (f.set_error_with_response a r c m).2.address = some a := by
  refine ⟨?_, ?_, ?_, ?_⟩ <;>
    simp [ResponseFuture.set_error_with_response, ResponseFuture.is_set, h,
      ResponseFuture.internal_set_error, ResponseFuture.internal_set,
      ResponseFuture.response, ResponseFuture.address]

/-- Witness for C8 at a concrete input: a fresh future keeps the error
response object `⟨6⟩`. -/
theorem c8_error_response_retained_witness :
    (ResponseFuture.init.set_error_with_response ⟨2⟩ ⟨6⟩
        (CassError.server PerHostError.overloaded) "overloaded").1 = true ∧
    (ResponseFuture.init.set_error_with_response ⟨2⟩ ⟨6⟩
        (CassError.server PerHostError.overloaded) "overloaded").2.response =
      some (some ⟨6⟩) :=
  ⟨(c8_error_response_retained ResponseFuture.init ⟨2⟩ ⟨6⟩
      (CassError.server PerHostError.overloaded) "overloaded" rfl).1,
    (c8_error_response_retained ResponseFuture.init ⟨2⟩ ⟨6⟩
      (CassError.server PerHostError.overloaded) "overloaded" rfl).2.1⟩

/-- Claim C2: if the absolute timeout fires while no outcome is set, the
Handler sets the cancellation flag and commits a Timeout error to the
future; if an outcome was already set, the timeout path commits nothing
(the future is unchanged); and every Execution response or error arriving
after the timeout path ran is discarded — it returns false and leaves the
stored outcome unchanged. -/
theorem c2_timeout_commit (h : HandlerState) :
    h.on_timeout.is_canceled_ = true ∧
    (h.future.is_set_ = false →
      h.on_timeout.future.is_set_ = true ∧
      h.on_timeout.future.error_ =
        some (CassError.requestTimedOut, "Request timed out")) ∧
    (h.future.is_set_ = true → h.on_timeout.future = h.future) ∧
    (∀ cs : List SetCall,
      runCalls h.on_timeout.future cs =
        (List.replicate cs.length false, h.on_timeout.future)) := by
  refine ⟨rfl, ?_, ?_, ?_⟩
  · intro hu
    constructor <;>
      simp [HandlerState.on_timeout, ResponseFuture.set_error, ResponseFuture.is_set, hu,
        ResponseFuture.internal_set_error, ResponseFuture.internal_set]
  · intro hs
    simp [HandlerState.on_timeout, ResponseFuture.set_error, ResponseFuture.is_set, hs]
  · intro cs
    exact runCalls_of_set (on_timeout_future_set h) cs

/-- Witness for C2 at a concrete input: a Handler whose future is still
unset gets canceled with a Timeout outcome, and a late response is
discarded. -/
theorem c2_timeout_commit_witness :
    (HandlerState.on_timeout ⟨ResponseFuture.init, false⟩).is_canceled_ = true ∧
    (HandlerState.on_timeout ⟨ResponseFuture.init, false⟩).future.error_ =
      some (CassError.requestTimedOut, "Request timed out") ∧
    runCalls (HandlerState.on_timeout ⟨ResponseFuture.init, false⟩).future
        [SetCall.respCall ⟨9⟩ ⟨9⟩] =
      (List.replicate 1 false,
        (HandlerState.on_timeout ⟨ResponseFuture.init, false⟩).future) :=
  ⟨(c2_timeout_commit ⟨ResponseFuture.init, false⟩).1,
    ((c2_timeout_commit ⟨ResponseFuture.init, false⟩).2.1 rfl).2,
    (c2_timeout_commit ⟨ResponseFuture.init, false⟩).2.2.2 [SetCall.respCall ⟨9⟩ ⟨9⟩]⟩

/-- Claim C3: if the Host Plan yields exactly hosts A, B, C, the Retry
Policy answers retry-next-host for every error, and every host fails with
the same retryable error, then the committed outcome is an
AllAttemptsExhausted error carrying host C's error (stored with C's
address), and the attempted-address list is exactly the addresses of A, B
and C in order. -/
theorem c3_all_attempts_exhausted (policy : PerHostError → RetryDecision)
    (errorOf : Host → PerHostError × String) (A B C : Host) (fuel : Nat)
    (hp : ∀ e, policy e = RetryDecision.retryNextHost)
    (_hA : errorOf A = errorOf C) (_hB : errorOf B = errorOf C) :
    (runRetryLoop policy errorOf fuel [A, B, C] none ResponseFuture.init).is_set_ = true ∧
    (runRetryLoop policy errorOf fuel [A, B, C] none ResponseFuture.init).error_ =
      some (CassError.allAttemptsExhausted (some (errorOf C).1), (errorOf C).2) ∧
    (runRetryLoop policy errorOf fuel [A, B, C] none ResponseFuture.init).address_ =
      C.address ∧
    (runRetryLoop policy errorOf fuel [A, B, C] none ResponseFuture.init).attempted_addresses_ =
      [A.address, B.address, C.address] := by
  rw [runRetryLoop_step policy errorOf hp, runRetryLoop_step policy errorOf hp,
    runRetryLoop_step policy errorOf hp, runRetryLoop_exhausted]
  refine ⟨?_, ?_, ?_, ?_⟩ <;>
    simp [ResponseFuture.add_attempted_address, ResponseFuture.set_error_with_address,
      ResponseFuture.is_set, ResponseFuture.init,
      ResponseFuture.internal_set_error, ResponseFuture.internal_set]

/-- Witness for C3 at concrete inputs: hosts 1, 2, 3 all overloaded under
an always-retry-next-host policy exhaust the plan. -/
theorem c3_all_attempts_exhausted_witness :
    (runRetryLoop (fun _ => RetryDecision.retryNextHost)
        (fun _ => (PerHostError.overloaded, "overloaded")) 0
        [⟨⟨1⟩⟩, ⟨⟨2⟩⟩, ⟨⟨3⟩⟩] none ResponseFuture.init).error_ =
      some (CassError.allAttemptsExhausted (some PerHostError.overloaded),
        "overloaded") ∧
    (runRetryLoop (fun _ => RetryDecision.retryNextHost)
        (fun _ => (PerHostError.overloaded, "overloaded")) 0
        [⟨⟨1⟩⟩, ⟨⟨2⟩⟩, ⟨⟨3⟩⟩] none ResponseFuture.init).attempted_addresses_ =
      [⟨1⟩, ⟨2⟩, ⟨3⟩] :=
  ⟨(c3_all_attempts_exhausted (fun _ => RetryDecision.retryNextHost)
      (fun _ => (PerHostError.overloaded, "overloaded")) ⟨⟨1⟩⟩ ⟨⟨2⟩⟩ ⟨⟨3⟩⟩ 0
      (fun _ => rfl) rfl rfl).2.1,
    (c3_all_attempts_exhausted (fun _ => RetryDecision.retryNextHost)
      (fun _ => (PerHostError.overloaded, "overloaded")) ⟨⟨1⟩⟩ ⟨⟨2⟩⟩ ⟨⟨3⟩⟩ 0
      (fun _ => rfl) rfl rfl).2.2.2⟩

/-- Claim C7: in every reachable Handler state the running-execution
counter is non-negative, it always equals the number of still-in-flight
Executions, and it is zero exactly when every Execution the Handler
started has reported terminal status. -/
theorem c7_running_counter (s : ExecCounterState) (h : ExecCounterReachable s) :
    0 ≤ s.running_executions_ ∧
    s.running_executions_ = (inFlightCount s.execs : Int) ∧
    (s.running_executions_ = 0 ↔ ∀ e ∈ s.execs, e = ExecStatus.terminal) := by
  have heq := execCounter_eq_inFlight h
  refine ⟨by rw [heq]; exact Int.natCast_nonneg _, heq, ?_⟩
  rw [heq]
  constructor
  · intro h0 e he
    have hc : inFlightCount s.execs = 0 := by exact_mod_cast h0
    rw [inFlightCount, List.countP_eq_zero] at hc
    have := hc e he
    cases e with
    | terminal => rfl
    | inFlight => simp at this
  · intro hall
    have hc : inFlightCount s.execs = 0 := by
      rw [inFlightCount, List.countP_eq_zero]
      intro e he
      rw [hall e he]
      simp
    exact_mod_cast hc

/-- Witness for C7 at a concrete reachable state: two Executions started,
one reported terminal, so the counter is 1 and not yet zero. -/
theorem c7_running_counter_witness :
    0 ≤ (1 : Int) ∧
    (1 : Int) = (inFlightCount [ExecStatus.terminal, ExecStatus.inFlight] : Int) ∧
    ((1 : Int) = 0 ↔
      ∀ e ∈ [ExecStatus.terminal, ExecStatus.inFlight], e = ExecStatus.terminal) := by
  have r1 : ExecCounterReachable { execs := [ExecStatus.inFlight], running_executions_ := 1 } := by
    have := ExecCounterReachable.step ExecCounterReachable.init
      (ExecCounterStep.start ExecCounterState.init)
    simpa [ExecCounterState.init] using this
  have r2 : ExecCounterReachable
      { execs := [ExecStatus.inFlight, ExecStatus.inFlight], running_executions_ := 2 } := by
    have := ExecCounterReachable.step r1
      (ExecCounterStep.start { execs := [ExecStatus.inFlight], running_executions_ := 1 })
    simpa using this
  have r3 : ExecCounterReachable
      { execs := [ExecStatus.terminal, ExecStatus.inFlight], running_executions_ := 1 } := by
    have := ExecCounterReachable.step r2
      (ExecCounterStep.finish
        { execs := [ExecStatus.inFlight, ExecStatus.inFlight], running_executions_ := 2 }
        [] [ExecStatus.inFlight] rfl)
    simpa using this
  simpa using c7_running_counter
    { execs := [ExecStatus.terminal, ExecStatus.inFlight], running_executions_ := 1 } r3

end Cass
